import Mathlib

/-!
Shallow embedding of the XNav roboRIO client library
(src/roborio_library/src/XNavLib.cpp, WPILIB_AVAILABLE branch).

Doubles are modelled as rationals: the library performs no floating-point
arithmetic, it only copies values between subscriber caches and records, so
the copy semantics are exact in any numeric carrier.  Machine ints read from
int64 feeds and narrowed with static_cast to 32-bit int are modelled with an
explicit wrap-around function toInt32.  The NetworkTables topic caches are
modelled as a state record NTState giving, for every topic the library
subscribes to, the value Get() currently returns (the declared default when
nothing was ever published).  The PIMPL object XNav::Impl is modelled as
Impl, carrying the lazily grown per-tag subscriber key set, the callback
slot and the binding state; query functions that may insert per-tag
subscriber entries thread the Impl state explicitly.
-/

namespace xnav

/-- static_cast from int64 to a 32-bit int: two-complement wrap-around. -/
def toInt32 (v : Int) : Int := (v + 2 ^ 31) % 2 ^ 32 - 2 ^ 31

/-- TagResult record (XNavLib.h): a single detected AprilTag, defaults are
id = -1 and all numerics zero. -/
structure TagResult where
  id : Int := -1
  tx : ℚ := 0
  ty : ℚ := 0
  x : ℚ := 0
  y : ℚ := 0
  z : ℚ := 0
  distance : ℚ := 0
  yaw : ℚ := 0
  pitch : ℚ := 0
  roll : ℚ := 0
deriving DecidableEq, Repr

/-- RobotPose record (XNavLib.h): field-centric pose, defaults are zeros and
valid = false. -/
structure RobotPose where
  x : ℚ := 0
  y : ℚ := 0
  z : ℚ := 0
  roll : ℚ := 0
  pitch : ℚ := 0
  yaw_deg : ℚ := 0
  valid : Bool := false
deriving DecidableEq, Repr

/-- OffsetPoint record (XNavLib.h). -/
structure OffsetPoint where
  tag_id : Int := -1
  x : ℚ := 0
  y : ℚ := 0
  z : ℚ := 0
  direct_distance : ℚ := 0
  tx : ℚ := 0
  ty : ℚ := 0
  valid : Bool := false
deriving DecidableEq, Repr

/-- SystemStatus record (XNavLib.h). -/
structure SystemStatus where
  status : String := ""
  fps : ℚ := 0
  latency_ms : ℚ := 0
  num_targets : Int := 0
  nt_connected : Bool := false
deriving DecidableEq, Repr

/-- The nine per-tag scalar topics under targets/<id>/ as seen through the
per-tag subscribers; every topic defaults to 0.0 (XNavLib.cpp Impl::GetTagSubs
subscribes each with default 0.0). -/
structure TagFeed where
  tx : ℚ := 0
  ty : ℚ := 0
  x : ℚ := 0
  y : ℚ := 0
  z : ℚ := 0
  distance : ℚ := 0
  yaw : ℚ := 0
  pitch : ℚ := 0
  roll : ℚ := 0
deriving DecidableEq, Repr

/-- The NetworkTables topic caches the subscribers read from: for each topic,
the value Get() returns right now.  Defaults are the subscription defaults
from Impl::Init.  tagFeeds gives the current targets/<id>/ values for every
id; connections is the number of live transport connections. -/
structure NTState where
  hasTarget : Bool := false
  numTargets : Int := 0
  primaryTagId : Int := -1
  status : String := "unknown"
  fps : ℚ := 0
  latencyMs : ℚ := 0
  robotPose : List ℚ := []
  tagIds : List Int := []
  tagFeeds : Int → TagFeed := fun _ => {}
  connections : Nat := 0

/-- XNav::Impl state: table name, the stored on_new_targets callback slot
(callbacks are identified abstractly by a natural number; none models the
empty std function), the binding state set by Init, and the key set of the
lazily populated tag_subs map.  nts is the ambient topic-cache state the
subscribers read from. -/
structure Impl where
  table_name : String := "XNav"
  on_new_targets : Option Nat := none
  bound : Bool := false
  server : String := ""
  clientStarted : Bool := false
  tagSubsKeys : List Int := []
  nts : NTState := {}

/-- XNav::XNav(table_name): stores the table name, leaves everything else in
its default state.  nts is the ambient topic-cache state. -/
def construct (table_name : String) (nts : NTState) : Impl :=
  { table_name := table_name, nts := nts }

/-- XNav::Impl::Init(server): binds all root, offsetPoint and input topics,
sets the server address when non-empty, and starts the transport client.
Binding does not change any topic cache and does not touch tag_subs. -/
def Impl.Init (impl : Impl) (server : String) : Impl :=
  { impl with
    bound := true
    server := if server ≠ "" then server else impl.server
    clientStarted := true }

/-- XNav::Impl::GetTagSubs(id), state effect: if id already has a per-tag
subscriber set, nothing changes; otherwise the nine targets/<id>/ subscribers
are created and inserted into tag_subs under key id. -/
def Impl.GetTagSubs (impl : Impl) (id : Int) : Impl :=
  if id ∈ impl.tagSubsKeys then impl
  else { impl with tagSubsKeys := id :: impl.tagSubsKeys }

/-- Value read by XNav::Impl::ReadTag(id): id field set to the requested id,
the nine numeric fields read from the targets/<id>/ subscriber caches. -/
def ReadTagV (s : NTState) (id : Int) : TagResult :=
  let f := s.tagFeeds id
  { id := id, tx := f.tx, ty := f.ty, x := f.x, y := f.y, z := f.z,
    distance := f.distance, yaw := f.yaw, pitch := f.pitch, roll := f.roll }

/-- XNav::Impl::ReadTag(id): ensures the per-tag subscriber set exists
(GetTagSubs) and assembles the TagResult from its nine cached scalars. -/
def Impl.ReadTag (impl : Impl) (id : Int) : TagResult × Impl :=
  (ReadTagV impl.nts id, impl.GetTagSubs id)

/-- XNav::HasTarget(). -/
def HasTarget (s : NTState) : Bool := s.hasTarget

/-- XNav::GetNumTargets(): static_cast of the numTargets int64 feed. -/
def GetNumTargets (s : NTState) : Int := toInt32 s.numTargets

/-- XNav::GetTagIds(): narrows each element of the tagIds int64 sequence. -/
def GetTagIds (s : NTState) : List Int := s.tagIds.map toInt32

/-- XNav::GetPrimaryTarget(): narrows the primaryTagId feed; a negative id
yields the default TagResult, otherwise ReadTag on that id. -/
def GetPrimaryTarget (impl : Impl) : TagResult × Impl :=
  let id := toInt32 impl.nts.primaryTagId
  if id < 0 then ({}, impl) else impl.ReadTag id

/-- XNav::GetTarget(tag_id): looks tag_id up in GetTagIds(); absent ids give
the empty optional, present ids give ReadTag(tag_id). -/
def GetTarget (impl : Impl) (tag_id : Int) : Option TagResult × Impl :=
  let ids := GetTagIds impl.nts
  if tag_id ∈ ids then
    let r := impl.ReadTag tag_id
    (some r.1, r.2)
  else (none, impl)

/-- Loop body of XNav::GetAllTargets(): ReadTag on each id in order,
threading the Impl state. -/
def GetAllTargetsAux (impl : Impl) : List Int → List TagResult × Impl
  | [] => ([], impl)
  | id :: rest =>
    let r := impl.ReadTag id
    let rs := GetAllTargetsAux r.2 rest
    (r.1 :: rs.1, rs.2)

/-- XNav::GetAllTargets(): ReadTag over GetTagIds(), in order. -/
def GetAllTargets (impl : Impl) : List TagResult × Impl :=
  GetAllTargetsAux impl (GetTagIds impl.nts)

/-- XNav::GetRobotPose(): if the robotPose sequence has at least six
elements, the pose is filled from elements 0..5 with valid = true; otherwise
the default (all-zero, invalid) pose is returned. -/
def GetRobotPose (s : NTState) : RobotPose :=
  if 6 ≤ s.robotPose.length then
    { x := s.robotPose.getD 0 0, y := s.robotPose.getD 1 0,
      z := s.robotPose.getD 2 0, roll := s.robotPose.getD 3 0,
      pitch := s.robotPose.getD 4 0, yaw_deg := s.robotPose.getD 5 0,
      valid := true }
  else {}

/-- XNav::IsConnected(): true iff the transport reports a live connection. -/
def IsConnected (impl : Impl) : Bool := impl.nts.connections ≠ 0

/-- XNav::GetStatus(): copies the status, fps and latencyMs feeds, the
narrowed numTargets feed and the connection flag into a SystemStatus. -/
def GetStatus (impl : Impl) : SystemStatus :=
  { status := impl.nts.status, fps := impl.nts.fps,
    latency_ms := impl.nts.latencyMs,
    num_targets := GetNumTargets impl.nts,
    nt_connected := IsConnected impl }

/-- XNav::OnNewTargets(callback): plain assignment into the callback slot,
replacing whatever was stored before. -/
def OnNewTargets (impl : Impl) (cb : Nat) : Impl :=
  { impl with on_new_targets := some cb }

/-- The status vocabulary declared by the specification. -/
def statusVocabulary : List String := ["running", "starting", "error", "unknown"]

/-- The transport and registry operations a body of the library can perform,
for trace-level statements: which calls XNav::Impl::Init and
XNav::Impl::GetTagSubs issue, in order. -/
inductive NTOp where
  | getTable (path : String)
  | getSubTable (path : String)
  | subscribeBool (topic : String)
  | subscribeInt (topic : String)
  | subscribeString (topic : String)
  | subscribeDouble (topic : String)
  | subscribeDoubleArray (topic : String)
  | subscribeIntArray (topic : String)
  | publishDouble (topic : String)
  | publishBool (topic : String)
  | setServer (addr : String)
  | startClient (identity : String)
  | addListener
  | lockDataMutex
  | mapFind (id : Int)
  | mapInsert (id : Int)
deriving DecidableEq, Repr

/-- The sequence of transport calls performed by XNav::Impl::Init(server),
transliterated line by line from XNavLib.cpp lines 66-98.  Note that no
listener of any kind is registered. -/
def InitTrace (table_name server : String) : List NTOp :=
  [NTOp.getTable table_name,
   NTOp.subscribeBool "hasTarget",
   NTOp.subscribeInt "numTargets",
   NTOp.subscribeInt "primaryTagId",
   NTOp.subscribeString "status",
   NTOp.subscribeDouble "fps",
   NTOp.subscribeDouble "latencyMs",
   NTOp.subscribeDoubleArray "robotPose",
   NTOp.subscribeIntArray "tagIds",
   NTOp.getSubTable "offsetPoint",
   NTOp.subscribeBool "offsetPoint/valid",
   NTOp.subscribeDouble "offsetPoint/x",
   NTOp.subscribeDouble "offsetPoint/y",
   NTOp.subscribeDouble "offsetPoint/z",
   NTOp.subscribeDouble "offsetPoint/directDistance",
   NTOp.subscribeDouble "offsetPoint/tx",
   NTOp.subscribeDouble "offsetPoint/ty",
   NTOp.subscribeInt "offsetPoint/tag_id",
   NTOp.getSubTable "input",
   NTOp.publishDouble "input/turretAngle",
   NTOp.publishBool "input/turretEnabled",
   NTOp.publishBool "input/matchMode"] ++
  (if server ≠ "" then [NTOp.setServer server] else []) ++
  [NTOp.startClient "XNavLib"]

/-- The sequence of registry operations performed by
XNav::Impl::GetTagSubs(id): a map lookup, and on a miss the creation of the
nine per-tag subscribers followed by the map insertion.  No mutex is
acquired anywhere in the body. -/
def GetTagSubsTrace (impl : Impl) (id : Int) : List NTOp :=
  if id ∈ impl.tagSubsKeys then [NTOp.mapFind id]
  else
    [NTOp.mapFind id,
     NTOp.getSubTable ("targets/" ++ toString id),
     NTOp.subscribeDouble "tx",
     NTOp.subscribeDouble "ty",
     NTOp.subscribeDouble "x",
     NTOp.subscribeDouble "y",
     NTOp.subscribeDouble "z",
     NTOp.subscribeDouble "distance",
     NTOp.subscribeDouble "yaw",
     NTOp.subscribeDouble "pitch",
     NTOp.subscribeDouble "roll",
     NTOp.mapInsert id]

/-- GetTagSubs only touches the tag_subs key set, never the topic caches. -/
theorem GetTagSubs_nts (impl : Impl) (id : Int) :
    (impl.GetTagSubs id).nts = impl.nts := by
  unfold Impl.GetTagSubs
  split <;> rfl

/-- The value ReadTag returns is determined by the topic caches alone, not by
which per-tag subscriber sets happen to exist already. -/
theorem ReadTag_fst (impl : Impl) (id : Int) :
    (impl.ReadTag id).1 = ReadTagV impl.nts id := rfl

/-- The GetAllTargets loop returns exactly the map of ReadTagV over the id
list it is given, whatever the starting subscriber-key state. -/
theorem GetAllTargetsAux_fst (ids : List Int) (impl : Impl) :
    (GetAllTargetsAux impl ids).1 = ids.map (ReadTagV impl.nts) := by
  induction ids generalizing impl with
  | nil => rfl
  | cons id rest ih =>
    simp only [GetAllTargetsAux, Impl.ReadTag, List.map_cons]
    rw [ih, GetTagSubs_nts]

/-- Example state for C1: tag 7 is currently published, and a per-tag
subscriber set for tag 3 is cached from an earlier frame. -/
def ex1 : Impl :=
  { nts := { tagIds := [7] }, tagSubsKeys := [3] }

/-- C1: GetTarget(id) returns the empty optional iff id is not in the current
tagIds list; when id is present it returns the TagResult assembled from the
nine per-tag subscriber caches.  The statement quantifies over every
subscriber-key state tagSubsKeys, so a cached per-tag subscriber set left
over from an earlier frame never causes an absent id to return a result. -/
theorem GetTarget_absent_iff (impl : Impl) (id : Int) :
    ((GetTarget impl id).1 = none ↔ id ∉ GetTagIds impl.nts) ∧
    (id ∈ GetTagIds impl.nts →
      (GetTarget impl id).1 = some (ReadTagV impl.nts id)) := by
  unfold GetTarget
  by_cases h : id ∈ GetTagIds impl.nts <;> simp [h, Impl.ReadTag]

/-- C1 witness: in ex1, the present id 7 is found and assembled, and the
absent id 3 returns the empty optional despite its cached subscriber set. -/
theorem GetTarget_absent_iff_witness :
    (GetTarget ex1 7).1 = some (ReadTagV ex1.nts 7) ∧ (GetTarget ex1 3).1 = none :=
  ⟨(GetTarget_absent_iff ex1 7).2 (by decide),
   (GetTarget_absent_iff ex1 3).1.mpr (by decide)⟩

/-- C3: GetRobotPose() is valid iff the robotPose sequence has length at
least six; with six or more elements the six fields come from elements 0..5
and everything beyond index 5 is ignored; with fewer, the default all-zero
invalid pose is returned. -/
theorem GetRobotPose_spec (s : NTState) (a b c d e f : ℚ) (rest : List ℚ) :
    ((GetRobotPose s).valid ↔ 6 ≤ s.robotPose.length) ∧
    (s.robotPose = a :: b :: c :: d :: e :: f :: rest →
      GetRobotPose s =
        { x := a, y := b, z := c, roll := d, pitch := e, yaw_deg := f,
          valid := true }) ∧
    (s.robotPose.length < 6 → GetRobotPose s = {}) := by
  refine ⟨?_, ?_, ?_⟩
  · unfold GetRobotPose
    split <;> simp_all
  · intro h
    simp [GetRobotPose, h]
  · intro h
    have h6 : ¬ 6 ≤ s.robotPose.length := by omega
    simp [GetRobotPose, h6]

/-- Example state for C3: a seven-element pose publication. -/
def ex3 : NTState := { robotPose := [1, 2, 0, 0, 0, 90, 5] }

/-- C3 witness: the seven-element publication [1,2,0,0,0,90,5] yields the
valid pose (1,2,0,0,0,90); the trailing element is ignored. -/
theorem GetRobotPose_spec_witness :
    GetRobotPose ex3 =
      { x := 1, y := 2, z := 0, roll := 0, pitch := 0, yaw_deg := 90,
        valid := true } :=
  (GetRobotPose_spec ex3 1 2 0 0 0 90 [5]).2.1 rfl

/-- C5: GetAllTargets() equals the element-wise map of tag assembly over
GetTagIds(): same length, same order, and the k-th element is the tag
assembled for the k-th id. -/
theorem GetAllTargets_map_tagIds (impl : Impl) :
    (GetAllTargets impl).1 = (GetTagIds impl.nts).map (ReadTagV impl.nts) ∧
    (GetAllTargets impl).1.length = (GetTagIds impl.nts).length ∧
    ∀ k : Nat, (GetAllTargets impl).1[k]? =
      ((GetTagIds impl.nts)[k]?).map (ReadTagV impl.nts) := by
  have h : (GetAllTargets impl).1 = (GetTagIds impl.nts).map (ReadTagV impl.nts) :=
    GetAllTargetsAux_fst _ impl
  refine ⟨h, by simp [h], fun k => by simp [h]⟩

/-- Example state for the C5 witness: two published tag ids. -/
def ex5 : Impl := { nts := { tagIds := [7, 2] } }

/-- C5 witness: the map identity instantiated on a concrete two-tag state. -/
theorem GetAllTargets_map_tagIds_witness :
    (GetAllTargets ex5).1 = (GetTagIds ex5.nts).map (ReadTagV ex5.nts) :=
  (GetAllTargets_map_tagIds ex5).1

/-- Example state for C4: the coprocessor published the negative id -3 in
tagIds, and the tx topic of the per-tag subtree for id -3 carries 5. -/
def ex4 : Impl :=
  { nts := { tagIds := [-3],
             tagFeeds := fun i => if i = -3 then { tx := 5 } else {} } }

/-- C4 counterexample: tag assembly for the negative id -3 on the
all-targets and lookup-by-id paths does NOT return the default TagResult
(id = -1, zeros); it returns id = -3 with the cached feed values, because
ReadTag has no negative-id guard and only GetPrimaryTarget checks id < 0. -/
theorem assembleTag_negative_counterexample :
    (GetAllTargets ex4).1 = [{ id := -3, tx := 5 }] ∧
    (GetTarget ex4 (-3)).1 = some { id := -3, tx := 5 } ∧
    ({ id := -3, tx := 5 } : TagResult) ≠ ({} : TagResult) := by
  refine ⟨by decide, by decide, by decide⟩

/-- Example states for the C4 witness: a default primary id, and a state
with primary id 2 and a stale negative id -3 in tagIds. -/
def ex4a : Impl := {}

/-- Second example state for the C4 witness. -/
def ex4b : Impl :=
  { nts := { primaryTagId := 2, tagIds := [2, -3],
             tagFeeds := fun i => if i = -3 then { tx := 5 } else {} } }

/-- C4 amended: a negative id yields the default TagResult only on the
primary-target path; on the lookup-by-id and all-targets paths every id in
tagIds (negative included) is assembled by ReadTag, whose result always has
its id field equal to the requested id and its nine numeric fields read from
the per-tag subscriber caches. -/
theorem assembleTag_amended (impl : Impl) (id : Int) :
    (toInt32 impl.nts.primaryTagId < 0 →
      (GetPrimaryTarget impl).1 = ({} : TagResult)) ∧
    (0 ≤ toInt32 impl.nts.primaryTagId →
      (GetPrimaryTarget impl).1 = ReadTagV impl.nts (toInt32 impl.nts.primaryTagId)) ∧
    (id ∈ GetTagIds impl.nts →
      (GetTarget impl id).1 = some (ReadTagV impl.nts id)) ∧
    ((ReadTagV impl.nts id).id = id ∧
     (ReadTagV impl.nts id).tx = (impl.nts.tagFeeds id).tx ∧
     (ReadTagV impl.nts id).ty = (impl.nts.tagFeeds id).ty ∧
     (ReadTagV impl.nts id).x = (impl.nts.tagFeeds id).x ∧
     (ReadTagV impl.nts id).y = (impl.nts.tagFeeds id).y ∧
     (ReadTagV impl.nts id).z = (impl.nts.tagFeeds id).z ∧
     (ReadTagV impl.nts id).distance = (impl.nts.tagFeeds id).distance ∧
     (ReadTagV impl.nts id).yaw = (impl.nts.tagFeeds id).yaw ∧
     (ReadTagV impl.nts id).pitch = (impl.nts.tagFeeds id).pitch ∧
     (ReadTagV impl.nts id).roll = (impl.nts.tagFeeds id).roll) := by
  refine ⟨?_, ?_, ?_, ?_⟩
  · intro h
    unfold GetPrimaryTarget
    simp [h]
  · intro h
    have hlt : ¬ toInt32 impl.nts.primaryTagId < 0 := not_lt.mpr h
    unfold GetPrimaryTarget
    simp [hlt, Impl.ReadTag]
  · intro h
    unfold GetTarget
    simp [h, Impl.ReadTag]
  · exact ⟨rfl, rfl, rfl, rfl, rfl, rfl, rfl, rfl, rfl, rfl⟩

/-- C4 witness: the default state has a negative primary id and yields the
default TagResult; in ex4b the primary id 2 is assembled directly, and the
negative id -3 present in tagIds is assembled with id field -3. -/
theorem assembleTag_amended_witness :
    (GetPrimaryTarget ex4a).1 = ({} : TagResult) ∧
    (GetPrimaryTarget ex4b).1 = ReadTagV ex4b.nts (toInt32 ex4b.nts.primaryTagId) ∧
    (GetTarget ex4b (-3)).1 = some (ReadTagV ex4b.nts (-3)) :=
  ⟨(assembleTag_amended ex4a 0).1 (by decide),
   (assembleTag_amended ex4b 0).2.1 (by decide),
   (assembleTag_amended ex4b (-3)).2.2.1 (by decide)⟩

/-- Example state for the C6 counterexample: the feeds carry a status string
outside the vocabulary and a negative fps. -/
def ex6 : Impl := { nts := { status := "borked", fps := -1 } }

/-- C6 counterexample: GetStatus copies feed values verbatim, so for the
feed state ex6 the returned record violates both the fps bound and the
status vocabulary; the claimed invariant does not hold for every feed
state. -/
theorem GetStatus_invariant_counterexample :
    (GetStatus ex6).fps < 0 ∧ (GetStatus ex6).status ∉ statusVocabulary := by
  refine ⟨by decide, by decide⟩

/-- C6 amended: GetStatus copies the telemetry feeds verbatim, so whenever
the feed values satisfy the bounds (fps, latency and narrowed numTargets
non-negative, status in the declared vocabulary) the returned record does
too; the default feed state satisfies all of them. -/
theorem GetStatus_invariant_amended (impl : Impl)
    (h1 : 0 ≤ impl.nts.fps) (h2 : 0 ≤ impl.nts.latencyMs)
    (h3 : 0 ≤ toInt32 impl.nts.numTargets)
    (h4 : impl.nts.status ∈ statusVocabulary) :
    0 ≤ (GetStatus impl).fps ∧ 0 ≤ (GetStatus impl).latency_ms ∧
    0 ≤ (GetStatus impl).num_targets ∧
    (GetStatus impl).status ∈ statusVocabulary :=
  ⟨h1, h2, h3, h4⟩

/-- C6 witness: the default feed state (nothing published, no connection)
yields fps = 0, latency_ms = 0, num_targets = 0 and status "unknown". -/
theorem GetStatus_invariant_amended_witness :
    0 ≤ (GetStatus {}).fps ∧ 0 ≤ (GetStatus {}).latency_ms ∧
    0 ≤ (GetStatus {}).num_targets ∧
    (GetStatus {}).status ∈ statusVocabulary :=
  GetStatus_invariant_amended {} (by decide) (by decide) (by decide) (by decide)

/-- C7: Init is idempotent on the client state: constructing a facade and
calling Init twice with the same server address leaves exactly the state a
single Init leaves, so every subsequent read returns the same result. -/
theorem Init_idempotent (table_name server : String) (nts : NTState) :
    Impl.Init (Impl.Init (construct table_name nts) server) server =
      Impl.Init (construct table_name nts) server := by
  unfold Impl.Init construct
  by_cases h : server ≠ "" <;> simp [h]

/-- C7 witness: the idempotence instance for a concrete table name, server
address and topic-cache state. -/
theorem Init_idempotent_witness :
    Impl.Init (Impl.Init (construct "XNav" {}) "10.0.0.2") "10.0.0.2" =
      Impl.Init (construct "XNav" {}) "10.0.0.2" :=
  Init_idempotent "XNav" "10.0.0.2" {}

/-- Example state for C9: primary id 4 published while tagIds is empty. -/
def ex9 : Impl := { nts := { primaryTagId := 4, tagIds := [] } }

/-- C9: for a non-negative primary id, GetPrimaryTarget assembles the tag
without any membership test against tagIds; when that id is absent from
tagIds (a stale primary), GetPrimaryTarget still returns a record carrying
that id while GetTarget returns the empty optional for the same id. -/
theorem GetPrimaryTarget_stale_contrast (impl : Impl)
    (h : 0 ≤ toInt32 impl.nts.primaryTagId) :
    (GetPrimaryTarget impl).1 = ReadTagV impl.nts (toInt32 impl.nts.primaryTagId) ∧
    (toInt32 impl.nts.primaryTagId ∉ GetTagIds impl.nts →
      (GetTarget impl (toInt32 impl.nts.primaryTagId)).1 = none ∧
      ((GetPrimaryTarget impl).1).id = toInt32 impl.nts.primaryTagId) := by
  have hlt : ¬ toInt32 impl.nts.primaryTagId < 0 := not_lt.mpr h
  constructor
  · unfold GetPrimaryTarget
    simp [hlt, Impl.ReadTag]
  · intro habs
    constructor
    · unfold GetTarget
      simp [habs]
    · unfold GetPrimaryTarget
      simp [hlt, Impl.ReadTag, ReadTagV]

/-- C9 witness: in ex9 the stale primary id 4 is still assembled and carries
id 4, while GetTarget 4 returns the empty optional. -/
theorem GetPrimaryTarget_stale_contrast_witness :
    (GetPrimaryTarget ex9).1 = ReadTagV ex9.nts (toInt32 ex9.nts.primaryTagId) ∧
    ((GetTarget ex9 (toInt32 ex9.nts.primaryTagId)).1 = none ∧
      ((GetPrimaryTarget ex9).1).id = toInt32 ex9.nts.primaryTagId) :=
  ⟨(GetPrimaryTarget_stale_contrast ex9 (by decide)).1,
   (GetPrimaryTarget_stale_contrast ex9 (by decide)).2 (by decide)⟩

/-- Example state for C10: the numTargets feed carries 5 while tagIds is
empty. -/
def ex10 : Impl := { nts := { numTargets := 5, tagIds := [] } }

/-- C10: GetNumTargets and the num_targets field of GetStatus come from the
independent numTargets scalar feed, not from the tagIds list: in ex10 they
are 5 while GetTagIds and GetAllTargets are empty. -/
theorem GetNumTargets_independent_of_tagIds :
    (∀ impl : Impl, (GetStatus impl).num_targets = GetNumTargets impl.nts) ∧
    GetNumTargets ex10.nts = 5 ∧ GetTagIds ex10.nts = [] ∧
    (GetAllTargets ex10).1 = [] ∧
    GetNumTargets ex10.nts ≠ ((GetTagIds ex10.nts).length : Int) ∧
    GetNumTargets ex10.nts ≠ (((GetAllTargets ex10).1).length : Int) := by
  exact ⟨fun impl => rfl, by decide, by decide, by decide, by decide, by decide⟩

/-- C2: registering a callback replaces the previous one in the slot, but
Init registers no listener of any kind on the transport — addListener never
occurs in its call trace — and no code path in the library reads the
on_new_targets slot, so the stored callback is never invoked on fresh
data. -/
theorem OnNewTargets_replaced_but_never_invoked (impl : Impl) (cb cb' : Nat)
    (table_name server : String) :
    (OnNewTargets (OnNewTargets impl cb) cb').on_new_targets = some cb' ∧
    NTOp.addListener ∉ InitTrace table_name server := by
  refine ⟨rfl, ?_⟩
  unfold InitTrace
  by_cases h : server ≠ "" <;> simp [h]

/-- C10 witness: the feed-sourced count instantiated on ex10, where it
differs from the tag-list length. -/
theorem GetNumTargets_independent_of_tagIds_witness :
    (GetStatus ex10).num_targets = GetNumTargets ex10.nts ∧
    GetNumTargets ex10.nts = 5 :=
  ⟨GetNumTargets_independent_of_tagIds.1 ex10,
   GetNumTargets_independent_of_tagIds.2.1⟩

/-- C2 witness: the replacement fact and the listener-free Init trace on
concrete inputs. -/
theorem OnNewTargets_replaced_but_never_invoked_witness :
    (OnNewTargets (OnNewTargets {} 0) 1).on_new_targets = some 1 ∧
    NTOp.addListener ∉ InitTrace "XNav" "" :=
  OnNewTargets_replaced_but_never_invoked {} 0 1 "XNav" ""

/-- Example state for C8: a fresh client with no cached per-tag sets. -/
def ex8 : Impl := {}

/-- C8: the body of GetTagSubs never acquires data_mutex (no lock operation
occurs in its trace for any state), yet on a cache miss it performs the map
insertion; the insertion is therefore unserialized. -/
theorem GetTagSubs_insert_without_mutex (impl : Impl) (id : Int) :
    NTOp.lockDataMutex ∉ GetTagSubsTrace impl id ∧
    NTOp.mapInsert 3 ∈ GetTagSubsTrace ex8 3 := by
  constructor
  · unfold GetTagSubsTrace
    split <;> simp
  · decide

/-- C8 witness: the lock-free trace fact instantiated on the fresh client
and id 3, where the insertion occurs. -/
theorem GetTagSubs_insert_without_mutex_witness :
    NTOp.lockDataMutex ∉ GetTagSubsTrace ex8 3 ∧
    NTOp.mapInsert 3 ∈ GetTagSubsTrace ex8 3 :=
  GetTagSubs_insert_without_mutex ex8 3

end xnav
